import Mathlib

/-!
Shallow embedding of `src/main.py` (Blender add-on "Create Image Mask from
Selection", version 1.6).  The add-on's single operator
`MASK_OT_create_image_mask.execute` is modelled as a pure function from an
explicit `State` (mesh, scene, material/image databases) to a result, a new
state and a log of observable effects (reports, bake-engine calls, the
temporary bake material at bake time, and capture/restore events).

Host (Blender) collection semantics used by the embedding:
  * `mesh.loops` are laid out polygon by polygon, so the per-loop color
    buffer has one row per polygon-vertex in polygon order;
  * collections keep datablock names unique, `collection[name]` returns the
    first (only) element of that name and `collection.remove` deletes the
    referenced element;
  * `bpy.ops.object.mode_set(mode='EDIT')` on a mesh object puts the context
    in mode `'EDIT_MESH'`; `mode_set(mode='OBJECT')` yields `'OBJECT'`.
Colors are modelled with `Rat` components: the script only ever writes the
exact values 0.0 and 1.0 and performs no arithmetic on them.
-/

/-- One RGBA color, as stored per loop in a vertex-color layer. -/
structure Color where
  r : Rat
  g : Rat
  b : Rat
  a : Rat
deriving DecidableEq, Repr

/-- A mesh polygon: its selection flag, its material slot index and the
number of its vertices (= the number of loops it owns). -/
structure Polygon where
  select : Bool
  material_index : Nat
  vertices : Nat
deriving DecidableEq, Repr

/-- A named vertex-color layer with one color per loop. -/
structure VcolLayer where
  name : String
  data : List Color
deriving DecidableEq, Repr

/-- Shader node kinds created by the script (src/main.py lines 121-123, 142). -/
inductive NodeType where
  | ShaderNodeOutputMaterial
  | ShaderNodeEmission
  | ShaderNodeVertexColor (layer_name : String)
  | ShaderNodeTexImage (image : String)
deriving DecidableEq, Repr

/-- A node-graph link; nodes are referenced by their position in the
material's node list. -/
structure Link where
  from_node : Nat
  from_socket : String
  to_node : Nat
  to_socket : String
deriving DecidableEq, Repr

/-- A material datablock: name, node list, link list, and the index of the
active node (the bake target), if any. -/
structure Material where
  name : String
  nodes : List NodeType
  links : List Link
  active : Option Nat
deriving DecidableEq, Repr

/-- An image datablock (src/main.py lines 135-141). -/
structure Image where
  name : String
  width : Nat
  height : Nat
  colorspace : String
deriving DecidableEq, Repr

/-- The add-on's property group (src/main.py lines 28-50): the three
user-facing configuration fields. -/
structure MaskCreatorProperties where
  image_name : String
  image_size : Nat
  margin : Nat
deriving DecidableEq, Repr

/-- Declared default of `image_name` (src/main.py line 32). -/
def image_name_default : String := "FaceMask"

/-- Declared default of `image_size` (src/main.py line 38). -/
def image_size_default : Nat := 4096

/-- Declared lower bound of `image_size` (src/main.py line 39). -/
def image_size_min : Nat := 256

/-- Declared upper bound of `image_size` (src/main.py line 40). -/
def image_size_max : Nat := 8192

/-- Declared UI step of `image_size` (src/main.py line 41). -/
def image_size_step : Nat := 1024

/-- Declared default of `margin` (src/main.py line 47). -/
def margin_default : Nat := 2

/-- Declared lower bound of `margin` (src/main.py line 48). -/
def margin_min : Nat := 0

/-- Declared upper bound of `margin` (src/main.py line 49). -/
def margin_max : Nat := 64

/-- A `MaskCreatorProperties` instance holding every field's declared
default value. -/
def defaultProps : MaskCreatorProperties :=
  { image_name := image_name_default
    image_size := image_size_default
    margin := margin_default }

/-- The mesh data of the active object: polygons, UV layers (only their
names matter here) and vertex-color layers. -/
structure Mesh where
  polygons : List Polygon
  uv_layers : List String
  vertex_colors : List VcolLayer
deriving DecidableEq, Repr

/-- Scene-level state read and written by the operator: the render engine
identifier, the interaction mode (`context.mode` values such as
`"EDIT_MESH"` or `"OBJECT"`), and the add-on properties. -/
structure Scene where
  render_engine : String
  mode : String
  props : MaskCreatorProperties
deriving DecidableEq, Repr

/-- The whole observable state the operator touches: the scene, the active
object's mesh, the object's material-slot list (slot names), and the global
material and image databases (`bpy.data.materials`, `bpy.data.images`). -/
structure State where
  scene : Scene
  mesh : Mesh
  obj_materials : List String
  data_materials : List Material
  data_images : List Image
deriving DecidableEq, Repr

/-- One invocation of the host bake engine (src/main.py lines 150-154). -/
structure BakeCall where
  btype : String
  margin : Nat
  use_clear : Bool
deriving DecidableEq, Repr

/-- The four state items captured for later restoration. -/
inductive Item where
  | selection
  | mode
  | engine
  | matIndices
deriving DecidableEq, Repr

/-- How a restore step writes its item back: one bulk collection write, a
per-polygon Python loop, or a single scalar assignment. -/
inductive Method where
  | bulkSet
  | perPolygon
  | single
deriving DecidableEq, Repr

/-- Capture/restore events, emitted in source order. -/
inductive Ev where
  | capture (item : Item)
  | restore (item : Item) (method : Method)
deriving DecidableEq, Repr

/-- Observable effects of one run: `self.report` calls as (level, message)
pairs, capture/restore events, bake-engine calls, and a snapshot of the
temporary bake material as it stands when the bake runs. -/
structure Log where
  reports : List (String × String)
  events : List Ev
  bakeCalls : List BakeCall
  bakeMaterial : Option Material
deriving DecidableEq, Repr

/-- Operator return values. -/
inductive OpResult where
  | CANCELLED
  | FINISHED
deriving DecidableEq, Repr

/-- Result of one `execute` run: the returned status, the post-run state,
and the effect log. -/
structure ExecOut where
  result : OpResult
  state : State
  log : Log
deriving DecidableEq, Repr

/-- Reserved vertex-color layer name (src/main.py line 97). -/
def VCOL_LAYER_NAME : String := "temp_mask_vcol"

/-- Reserved temporary material name (src/main.py line 113). -/
def BAKE_MATERIAL_NAME : String := "temp_mask_bake_material"

/-- Error message for a missing UV map (src/main.py line 72). -/
def uvErrorMsg : String := "Object has no UV map. Please unwrap the mesh first."

/-- Error message for an empty face selection (src/main.py line 85). -/
def noSelectionMsg : String := "No faces are selected."

/-- Host semantics of `bpy.ops.object.mode_set`: the operator mode name
`"EDIT"` puts a mesh object's context in mode `"EDIT_MESH"`; `"OBJECT"`
maps to itself. -/
def modeSetMode (m : String) : String :=
  if m = "EDIT" then "EDIT_MESH" else m

/-- Model of `np.repeat(xs, counts)`: repeat the i-th element `counts[i]` times
(src/main.py line 102, with `counts = [len(p.vertices) for p in polygons]`). -/
def npRepeat (xs : List Bool) (counts : List Nat) : List Bool :=
  (xs.zip counts).flatMap fun p => List.replicate p.2 p.1

/-- Model of `np.where(xs)[0]`: the indices at which `xs` is true, in increasing
order (src/main.py line 89). -/
def npWhere (xs : List Bool) : List Nat :=
  (List.range xs.length).filter fun i => xs.getD i false

/-- Fancy assignment `arr[idxs] = True` on a boolean vector
(src/main.py line 169). -/
def setTrueAt (xs : List Bool) (idxs : List Nat) : List Bool :=
  idxs.foldl (fun a i => a.set i true) xs

/-- The per-loop color rows of src/main.py lines 105-108, one row per entry
of `poly_colors`: start from `np.zeros((num_loops, 4))`, set column 3
(alpha) to 1.0, then set columns 0-2 to 1.0 on the rows where
`poly_colors` is true.  (`num_loops = len(mesh.loops)` equals the total
polygon-vertex count, the length of `poly_colors`.) -/
def maskColors (poly_colors : List Bool) : List Color :=
  poly_colors.map fun sel =>
    let c : Color := { r := 0, g := 0, b := 0, a := 0 }
    let c : Color := { c with a := 1 }
    if sel then { c with r := 1, g := 1, b := 1 } else c

/-- The color written to loops of selected polygons. -/
def WHITE : Color := { r := 1, g := 1, b := 1, a := 1 }

/-- The color written to loops of unselected polygons. -/
def BLACK : Color := { r := 0, g := 0, b := 0, a := 1 }

/-- Remove the first element whose name (under `f`) is `nm`; identity when
no element matches.  Models `collection.remove(collection[nm])`. -/
def removeFirstBy {α : Type} (f : α → String) (nm : String) : List α → List α
  | [] => []
  | x :: xs => if f x = nm then xs else x :: removeFirstBy f nm xs

/-- src/main.py lines 98-99: `if VCOL_LAYER_NAME in mesh.vertex_colors:
mesh.vertex_colors.remove(mesh.vertex_colors[VCOL_LAYER_NAME])`. -/
def removeNamedVcol (layers : List VcolLayer) : List VcolLayer :=
  if layers.any (fun l => l.name = VCOL_LAYER_NAME) then
    removeFirstBy VcolLayer.name VCOL_LAYER_NAME layers
  else layers

/-- src/main.py lines 114-115: `if BAKE_MATERIAL_NAME in bpy.data.materials:
bpy.data.materials.remove(bpy.data.materials[BAKE_MATERIAL_NAME])`. -/
def removeNamedMaterial (mats : List Material) : List Material :=
  if mats.any (fun m => m.name = BAKE_MATERIAL_NAME) then
    removeFirstBy Material.name BAKE_MATERIAL_NAME mats
  else mats

/-- The temporary bake material as it stands when the bake runs
(src/main.py lines 116-127 and 142-144): nodes are created in the order
output (0), emission (1), vertex-color (2), image-texture (3); the links
wire vertex-color `Color` into emission `Color` and emission `Emission`
into output `Surface`; the image-texture node is made the active node. -/
def bakeMaterialFor (image_name : String) : Material :=
  { name := BAKE_MATERIAL_NAME
    nodes := [NodeType.ShaderNodeOutputMaterial,
              NodeType.ShaderNodeEmission,
              NodeType.ShaderNodeVertexColor VCOL_LAYER_NAME,
              NodeType.ShaderNodeTexImage image_name]
    links := [{ from_node := 2, from_socket := "Color",
                to_node := 1, to_socket := "Color" },
              { from_node := 1, from_socket := "Emission",
                to_node := 0, to_socket := "Surface" }]
    active := some 3 }

/-- The image datablock created by src/main.py lines 135-141: named after
the `image_name` property, square at `image_size`, colorspace Non-Color. -/
def imageFor (props : MaskCreatorProperties) : Image :=
  { name := props.image_name
    width := props.image_size
    height := props.image_size
    colorspace := "Non-Color" }

/-- The operator body `MASK_OT_create_image_mask.execute` (src/main.py lines 66-176), line by
line.  `mesh.update_from_editmode()` (line 76) only syncs edit-mode data
into the mesh and is the identity here, where `State.mesh` already is the
current data. -/
def execute (st : State) : ExecOut :=
  let props := st.scene.props
  let mesh := st.mesh
  -- lines 71-73: missing UV map
  if mesh.uv_layers.isEmpty then
    { result := .CANCELLED
      state := st
      log := { reports := [("ERROR", uvErrorMsg)], events := [],
               bakeCalls := [], bakeMaterial := none } }
  else
    -- lines 80-82: read the polygon selection flags
    let polygon_selection := mesh.polygons.map Polygon.select
    -- lines 84-86: empty selection
    if (polygon_selection.any id) = false then
      { result := .CANCELLED
        state := st
        log := { reports := [("ERROR", noSelectionMsg)], events := [],
                 bakeCalls := [], bakeMaterial := none } }
    else
      -- lines 89-92: PRESERVATION (captures, in source order)
      let selected_face_indices := npWhere polygon_selection
      let original_mode := st.scene.mode
      let original_engine := st.scene.render_engine
      let original_material_indices := mesh.polygons.map Polygon.material_index
      -- line 94: mode_set(mode='OBJECT') — transient, overwritten at line 173
      -- lines 97-110: vertex color setup
      let vcs1 := removeNamedVcol mesh.vertex_colors
      let poly_colors := npRepeat polygon_selection (mesh.polygons.map Polygon.vertices)
      let colors := maskColors poly_colors
      let vcs2 := vcs1 ++ [{ name := VCOL_LAYER_NAME, data := colors }]
      -- lines 113-127, 142-144: material setup (final node graph at bake time)
      let dm1 := removeNamedMaterial st.data_materials
      let bake_material := bakeMaterialFor props.image_name
      -- lines 129-132: append the material slot, point every polygon at it
      let obj_materials1 := st.obj_materials ++ [BAKE_MATERIAL_NAME]
      let bake_material_slot_index := obj_materials1.length - 1
      let polys1 := mesh.polygons.map fun p =>
        { p with material_index := bake_material_slot_index }
      -- lines 135-141: image creation
      let image := imageFor props
      let di1 := st.data_images ++ [image]
      -- line 147: render engine set to CYCLES — transient, restored at line 165
      -- lines 150-154: the bake call
      let bake := [{ btype := "EMIT", margin := props.margin, use_clear := true : BakeCall }]
      -- line 157: remove the vertex-color layer created above
      let vcs3 := vcs2.dropLast
      -- lines 159-160: restore material indices (per-polygon loop)
      let polys2 := List.zipWith (fun p idx => { p with material_index := idx })
        polys1 original_material_indices
      -- line 162: pop the bake material slot (last slot; no polygon points
      -- at it any more after the restore above)
      let obj_materials2 := obj_materials1.eraseIdx bake_material_slot_index
      -- line 163: remove the bake material datablock (the one appended)
      let dm2 := (dm1 ++ [bake_material]).dropLast
      -- line 165: restore the render engine
      let engine2 := original_engine
      -- lines 168-170: restore selection via one bulk foreach_set
      let polygon_selection_restore :=
        setTrueAt (List.replicate mesh.polygons.length false) selected_face_indices
      let polys3 := List.zipWith (fun p s => { p with select := s })
        polys2 polygon_selection_restore
      -- lines 172-173: restore the interaction mode
      let final_mode := if original_mode = "EDIT_MESH" then "EDIT" else original_mode
      let mode2 := modeSetMode final_mode
      { result := .FINISHED
        state := { scene := { render_engine := engine2, mode := mode2, props := props }
                   mesh := { polygons := polys3, uv_layers := mesh.uv_layers,
                             vertex_colors := vcs3 }
                   obj_materials := obj_materials2
                   data_materials := dm2
                   data_images := di1 }
        log := { reports := [("INFO", "Baking mask to " ++ props.image_name ++ "..."),
                             ("INFO", "Successfully created mask image " ++ props.image_name ++ ".")]
                 events := [Ev.capture .selection, Ev.capture .mode,
                            Ev.capture .engine, Ev.capture .matIndices,
                            Ev.restore .matIndices .perPolygon,
                            Ev.restore .engine .single,
                            Ev.restore .selection .bulkSet,
                            Ev.restore .mode .single]
                 bakeCalls := bake
                 bakeMaterial := some bake_material } }

/-- The items captured, in event order. -/
def captureItems (evs : List Ev) : List Item :=
  evs.filterMap fun e => match e with
    | .capture i => some i
    | _ => none

/-- The items restored, in event order. -/
def restoreItems (evs : List Ev) : List Item :=
  evs.filterMap fun e => match e with
    | .restore i _ => some i
    | _ => none

/-- A small concrete state on the happy path: a quad and a triangle, the
quad selected, one UV layer, default properties, EEVEE engine, edit mode. -/
def demoState : State :=
  { scene := { render_engine := "BLENDER_EEVEE", mode := "EDIT_MESH", props := defaultProps }
    mesh := { polygons := [{ select := true, material_index := 0, vertices := 4 },
                           { select := false, material_index := 0, vertices := 3 }]
              uv_layers := ["UVMap"]
              vertex_colors := [] }
    obj_materials := []
    data_materials := []
    data_images := [] }

/-- A concrete state with no UV layer (and nothing selected). -/
def demoStateNoUV : State :=
  { demoState with mesh := { polygons := [{ select := false, material_index := 0, vertices := 3 }],
                             uv_layers := [], vertex_colors := [] } }

/-- A concrete state with a UV layer but an empty selection. -/
def demoStateNoSel : State :=
  { demoState with mesh := { polygons := [{ select := false, material_index := 0, vertices := 3 }],
                             uv_layers := ["UVMap"], vertex_colors := [] } }

example : (execute demoState).result = .FINISHED := by decide
example : (execute demoStateNoUV).result = .CANCELLED := by decide
example : (execute demoStateNoSel).log.reports = [("ERROR", noSelectionMsg)] := by decide
example : (execute demoState).state.mesh.polygons = demoState.mesh.polygons := by decide
example : (execute demoState).state.scene = demoState.scene := by decide

/-! ### List helper lemmas -/

/-- Erasing the index of the last element of `l ++ [x]` gives back `l`. -/
lemma eraseIdx_concat {α : Type} (l : List α) (x : α) :
    (l ++ [x]).eraseIdx l.length = l := by
  induction l with
  | nil => rfl
  | cons a t ih => simpa [List.eraseIdx] using ih

/-- The function `setTrueAt` preserves the length. -/
lemma setTrueAt_length (idxs : List Nat) (xs : List Bool) :
    (setTrueAt xs idxs).length = xs.length := by
  induction idxs generalizing xs with
  | nil => rfl
  | cons j t ih =>
    simp only [setTrueAt, List.foldl_cons] at ih ⊢
    rw [ih, List.length_set]

/-- Pointwise description of `setTrueAt`: an in-range index listed in `idxs`
reads back `true`, anything else is unchanged. -/
lemma setTrueAt_getElem? (idxs : List Nat) (xs : List Bool) (i : Nat) :
    (setTrueAt xs idxs)[i]? =
      if i ∈ idxs ∧ i < xs.length then some true else xs[i]? := by
  induction idxs generalizing xs with
  | nil => simp [setTrueAt]
  | cons j t ih =>
    simp only [setTrueAt, List.foldl_cons] at ih ⊢
    rw [ih (xs.set j true), List.length_set, List.getElem?_set]
    by_cases hmem : i ∈ t ∧ i < xs.length
    · rw [if_pos hmem, if_pos ⟨List.mem_cons_of_mem j hmem.1, hmem.2⟩]
    · rw [if_neg hmem]
      by_cases hij : j = i
      · subst hij
        rw [if_pos rfl]
        by_cases hlt : j < xs.length
        · rw [if_pos hlt, if_pos ⟨List.mem_cons_self j t, hlt⟩]
        · rw [if_neg hlt, if_neg (fun hc => hlt hc.2),
            List.getElem?_eq_none (by omega)]
      · have hcond : ¬ (i ∈ j :: t ∧ i < xs.length) := by
          rintro ⟨hm, hl⟩
          rcases List.mem_cons.mp hm with h | h
          · exact hij h.symm
          · exact hmem ⟨h, hl⟩
        rw [if_neg hij, if_neg hcond]

/-- Membership in `npWhere`. -/
lemma mem_npWhere (xs : List Bool) (i : Nat) :
    i ∈ npWhere xs ↔ i < xs.length ∧ xs.getD i false = true := by
  simp [npWhere, List.mem_filter, List.mem_range]

/-- Round trip of src/main.py lines 89 and 168-169: writing `True` at
`np.where(sel)[0]` into a zeroed boolean vector of the same length
reproduces `sel`. -/
lemma setTrueAt_npWhere (xs : List Bool) :
    setTrueAt (List.replicate xs.length false) (npWhere xs) = xs := by
  apply List.ext_getElem
  · rw [setTrueAt_length, List.length_replicate]
  · intro n h1 h2
    have hlen : n < xs.length := h2
    have h := setTrueAt_getElem? (npWhere xs) (List.replicate xs.length false) n
    rw [List.length_replicate] at h
    have hL : (setTrueAt (List.replicate xs.length false) (npWhere xs))[n]? =
        some ((setTrueAt (List.replicate xs.length false) (npWhere xs))[n]) :=
      List.getElem?_eq_getElem h1
    have hgd : xs.getD n false = xs[n] := List.getD_eq_getElem xs false hlen
    by_cases hb : xs[n] = true
    · have hval : (setTrueAt (List.replicate xs.length false) (npWhere xs))[n]? =
          some true := by
        rw [h]
        exact if_pos ⟨(mem_npWhere xs n).mpr ⟨hlen, by rw [hgd, hb]⟩, hlen⟩
      rw [hb]
      exact Option.some.inj (hL.symm.trans hval)
    · have hb' : xs[n] = false := by
        cases hxn : xs[n] with
        | false => rfl
        | true => exact absurd hxn hb
      have hcond : ¬ (n ∈ npWhere xs ∧ n < xs.length) := by
        rintro ⟨hm, _⟩
        have hx := ((mem_npWhere xs n).mp hm).2
        rw [hgd, hb'] at hx
        exact Bool.false_ne_true hx
      have hval : (setTrueAt (List.replicate xs.length false) (npWhere xs))[n]? =
          some false := by
        rw [h, if_neg hcond, List.getElem?_replicate, if_pos hlen]
      rw [hb']
      exact Option.some.inj (hL.symm.trans hval)

/-- Setting every polygon's material index to `k`, then writing back the
original indices and then the original selection flags, is the identity. -/
lemma restore_polys (k : Nat) (polys : List Polygon) :
    List.zipWith (fun p s => { p with select := s })
      (List.zipWith (fun p idx => { p with material_index := idx })
        (polys.map fun p => { p with material_index := k })
        (polys.map Polygon.material_index))
      (polys.map Polygon.select) = polys := by
  induction polys with
  | nil => rfl
  | cons p t ih =>
    obtain ⟨ps, pm, pv⟩ := p
    simp only [List.map_cons, List.zipWith_cons_cons, ih]

/-- Writing each polygon's own selection flag back into it is the identity. -/
lemma zipWith_select_self (polys : List Polygon) :
    List.zipWith (fun p s => { p with select := s })
      polys (polys.map Polygon.select) = polys := by
  induction polys with
  | nil => rfl
  | cons p t ih =>
    obtain ⟨ps, pm, pv⟩ := p
    simp only [List.map_cons, List.zipWith_cons_cons, ih]

/-- After removing the first element named `nm` from a list with pairwise
distinct names, no element named `nm` remains. -/
lemma removeFirstBy_name_ne {α : Type} (f : α → String) (nm : String)
    (xs : List α) (h : (xs.map f).Nodup) :
    ∀ x ∈ removeFirstBy f nm xs, f x ≠ nm := by
  induction xs with
  | nil => intro x hx; simp [removeFirstBy] at hx
  | cons x t ih =>
    rw [List.map_cons, List.nodup_cons] at h
    intro y hy
    by_cases hx : f x = nm
    · rw [removeFirstBy, if_pos hx] at hy
      intro hEq
      apply h.1
      have hmem : f y ∈ List.map f t := List.mem_map_of_mem f hy
      rwa [hEq, ← hx] at hmem
    · rw [removeFirstBy, if_neg hx] at hy
      rcases List.mem_cons.mp hy with h1 | h1
      · rw [h1]; exact hx
      · exact ih h.2 y h1

/-- The guarded removal of src/main.py lines 98-99 leaves no layer with the
reserved name (collection names are pairwise distinct). -/
lemma removeNamedVcol_clears (layers : List VcolLayer)
    (h : (layers.map VcolLayer.name).Nodup) :
    ∀ l ∈ removeNamedVcol layers, l.name ≠ VCOL_LAYER_NAME := by
  unfold removeNamedVcol
  split
  · exact removeFirstBy_name_ne VcolLayer.name VCOL_LAYER_NAME layers h
  · rename_i hany
    intro l hl
    have := List.any_eq_false.mp (Bool.of_not_eq_true hany) l hl
    simpa using this

/-- The guarded removal of src/main.py lines 114-115 leaves no material
with the reserved name (datablock names are pairwise distinct). -/
lemma removeNamedMaterial_clears (mats : List Material)
    (h : (mats.map Material.name).Nodup) :
    ∀ m ∈ removeNamedMaterial mats, m.name ≠ BAKE_MATERIAL_NAME := by
  unfold removeNamedMaterial
  split
  · exact removeFirstBy_name_ne Material.name BAKE_MATERIAL_NAME mats h
  · rename_i hany
    intro m hm
    have := List.any_eq_false.mp (Bool.of_not_eq_true hany) m hm
    simpa using this

/-! ### Characterizations of `execute` on each control path -/

/-- Missing UV map (src/main.py lines 71-73): report, cancel, no change. -/
lemma execute_no_uv_eq (st : State) (h : st.mesh.uv_layers = []) :
    execute st =
      { result := .CANCELLED
        state := st
        log := { reports := [("ERROR", uvErrorMsg)], events := [],
                 bakeCalls := [], bakeMaterial := none } } := by
  simp [execute, h]

/-- Empty selection (src/main.py lines 84-86): report, cancel, no change. -/
lemma execute_no_sel_eq (st : State) (hu : st.mesh.uv_layers ≠ [])
    (h : ∀ p ∈ st.mesh.polygons, p.select = false) :
    execute st =
      { result := .CANCELLED
        state := st
        log := { reports := [("ERROR", noSelectionMsg)], events := [],
                 bakeCalls := [], bakeMaterial := none } } := by
  have hu' : st.mesh.uv_layers.isEmpty = false := List.isEmpty_eq_false.mpr hu
  have hs : (st.mesh.polygons.map Polygon.select).any id = false := by
    rw [List.any_eq_false]
    intro b hb
    rcases List.mem_map.mp hb with ⟨p, hp, rfl⟩
    simp [h p hp]
  simp [execute, hu', hs]

/-- The happy path of `execute` in closed form: everything the run changes
and logs, with every captured item written back. -/
lemma execute_happy_eq (st : State)
    (hu : st.mesh.uv_layers.isEmpty = false)
    (hs : (st.mesh.polygons.map Polygon.select).any id = true) :
    execute st =
      { result := .FINISHED
        state := { scene := { render_engine := st.scene.render_engine
                              mode := modeSetMode
                                (if st.scene.mode = "EDIT_MESH" then "EDIT" else st.scene.mode)
                              props := st.scene.props }
                   mesh := { polygons := st.mesh.polygons
                             uv_layers := st.mesh.uv_layers
                             vertex_colors := removeNamedVcol st.mesh.vertex_colors }
                   obj_materials := st.obj_materials
                   data_materials := removeNamedMaterial st.data_materials
                   data_images := st.data_images ++ [imageFor st.scene.props] }
        log := { reports := [("INFO", "Baking mask to " ++ st.scene.props.image_name ++ "..."),
                             ("INFO", "Successfully created mask image " ++ st.scene.props.image_name ++ ".")]
                 events := [Ev.capture .selection, Ev.capture .mode,
                            Ev.capture .engine, Ev.capture .matIndices,
                            Ev.restore .matIndices .perPolygon,
                            Ev.restore .engine .single,
                            Ev.restore .selection .bulkSet,
                            Ev.restore .mode .single]
                 bakeCalls := [{ btype := "EMIT", margin := st.scene.props.margin,
                                 use_clear := true }]
                 bakeMaterial := some (bakeMaterialFor st.scene.props.image_name) } } := by
  have hrestore :
      setTrueAt (List.replicate st.mesh.polygons.length false)
        (npWhere (st.mesh.polygons.map Polygon.select)) =
        st.mesh.polygons.map Polygon.select := by
    have h := setTrueAt_npWhere (st.mesh.polygons.map Polygon.select)
    rwa [List.length_map] at h
  simp [execute, hu, hs, hrestore, restore_polys, zipWith_select_self,
    List.dropLast_concat, eraseIdx_concat]

/-! ### Claim theorems -/

/-- Claim C1: for every mesh topology and selection, the derived per-loop
color buffer gives every loop of a selected polygon the color
(1.0, 1.0, 1.0, 1.0) and every other loop (0.0, 0.0, 0.0, 1.0); no other
values occur and every loop's alpha is 1.0. -/
theorem loop_color_buffer_spec (polys : List Polygon) :
    maskColors (npRepeat (polys.map Polygon.select) (polys.map Polygon.vertices)) =
      polys.flatMap (fun p => List.replicate p.vertices (if p.select then WHITE else BLACK)) ∧
    ∀ c ∈ maskColors (npRepeat (polys.map Polygon.select) (polys.map Polygon.vertices)),
      c.a = 1 ∧ (c = WHITE ∨ c = BLACK) := by
  have heq : maskColors (npRepeat (polys.map Polygon.select) (polys.map Polygon.vertices)) =
      polys.flatMap fun p => List.replicate p.vertices (if p.select then WHITE else BLACK) := by
    induction polys with
    | nil => rfl
    | cons p t ih =>
      have hstep : npRepeat ((p :: t).map Polygon.select) ((p :: t).map Polygon.vertices) =
          List.replicate p.vertices p.select ++
            npRepeat (t.map Polygon.select) (t.map Polygon.vertices) := by
        simp [npRepeat]
      have hrep : maskColors (List.replicate p.vertices p.select) =
          List.replicate p.vertices (if p.select then WHITE else BLACK) := by
        cases p.select <;> simp [maskColors, WHITE, BLACK]
      have happ : maskColors (List.replicate p.vertices p.select ++
            npRepeat (t.map Polygon.select) (t.map Polygon.vertices)) =
          maskColors (List.replicate p.vertices p.select) ++
            maskColors (npRepeat (t.map Polygon.select) (t.map Polygon.vertices)) :=
        List.map_append _ _ _
      rw [hstep, List.flatMap_cons, happ, hrep, ih]
  refine ⟨heq, ?_⟩
  intro c hc
  rw [heq, List.mem_flatMap] at hc
  obtain ⟨p, _, hcmem⟩ := hc
  have hcd := (List.mem_replicate.mp hcmem).2
  subst hcd
  cases hp : p.select <;> simp [WHITE, BLACK]

/-- Witness for claim C1 at a concrete two-polygon mesh. -/
def demoPolys : List Polygon :=
  [{ select := true, material_index := 0, vertices := 1 },
   { select := false, material_index := 0, vertices := 2 }]

/-- Claim C1 witness: the buffer equality at `demoPolys`, and the color of
a concrete loop of a selected polygon. -/
theorem loop_color_buffer_spec_witness :
    (maskColors (npRepeat (demoPolys.map Polygon.select) (demoPolys.map Polygon.vertices)) =
      demoPolys.flatMap fun p => List.replicate p.vertices (if p.select then WHITE else BLACK)) ∧
    (WHITE.a = 1 ∧ (WHITE = WHITE ∨ WHITE = BLACK)) :=
  ⟨(loop_color_buffer_spec demoPolys).1,
   (loop_color_buffer_spec demoPolys).2 WHITE (by decide)⟩

/-- Claim C2: after every successful run (started from the face-edit mode
the operator's poll guarantees), the per-polygon selection flags, the
per-polygon material-slot indices, the render engine and the interaction
mode all equal their pre-run values. -/
theorem state_roundtrip_after_success (st : State)
    (hu : st.mesh.uv_layers ≠ [])
    (hs : (st.mesh.polygons.map Polygon.select).any id = true)
    (hm : st.scene.mode = "EDIT_MESH") :
    (execute st).result = .FINISHED ∧
    (execute st).state.mesh.polygons.map Polygon.select =
      st.mesh.polygons.map Polygon.select ∧
    (execute st).state.mesh.polygons.map Polygon.material_index =
      st.mesh.polygons.map Polygon.material_index ∧
    (execute st).state.scene.render_engine = st.scene.render_engine ∧
    (execute st).state.scene.mode = st.scene.mode := by
  rw [execute_happy_eq st (List.isEmpty_eq_false.mpr hu) hs]
  refine ⟨rfl, rfl, rfl, rfl, ?_⟩
  rw [hm]
  simp [modeSetMode]

/-- Claim C2 witness at the concrete happy-path state. -/
theorem state_roundtrip_after_success_witness :
    (execute demoState).result = .FINISHED ∧
    (execute demoState).state.mesh.polygons.map Polygon.select =
      demoState.mesh.polygons.map Polygon.select ∧
    (execute demoState).state.mesh.polygons.map Polygon.material_index =
      demoState.mesh.polygons.map Polygon.material_index ∧
    (execute demoState).state.scene.render_engine = demoState.scene.render_engine ∧
    (execute demoState).state.scene.mode = demoState.scene.mode :=
  state_roundtrip_after_success demoState (by decide) (by decide) rfl

/-- Claim C3 counterexample: at a concrete happy-path input, the items are
restored in the order material indices, engine, selection, mode, which is
not the order in which they were captured (selection, mode, engine,
material indices) — the claim's "same order as captured" is false. -/
theorem restore_order_differs_from_capture_order :
    restoreItems (execute demoState).log.events ≠
      captureItems (execute demoState).log.events := by
  decide

/-- Claim C3 (amended): the happy path captures selection, mode, engine and
material indices in that order, restores all four, re-applies selection via
a single bulk set, and restores in the order material indices, engine,
selection, mode. -/
theorem restore_events_actual_order (st : State)
    (hu : st.mesh.uv_layers ≠ [])
    (hs : (st.mesh.polygons.map Polygon.select).any id = true) :
    (execute st).log.events =
      [Ev.capture .selection, Ev.capture .mode,
       Ev.capture .engine, Ev.capture .matIndices,
       Ev.restore .matIndices .perPolygon,
       Ev.restore .engine .single,
       Ev.restore .selection .bulkSet,
       Ev.restore .mode .single] := by
  rw [execute_happy_eq st (List.isEmpty_eq_false.mpr hu) hs]

/-- Claim C3 witness at the concrete happy-path state. -/
theorem restore_events_actual_order_witness :
    (execute demoState).log.events =
      [Ev.capture .selection, Ev.capture .mode,
       Ev.capture .engine, Ev.capture .matIndices,
       Ev.restore .matIndices .perPolygon,
       Ev.restore .engine .single,
       Ev.restore .selection .bulkSet,
       Ev.restore .mode .single] :=
  restore_events_actual_order demoState (by decide) (by decide)

/-- Claim C4: with no UV map the operator reports the UV-map error, returns
CANCELLED, and leaves the whole state untouched. -/
theorem no_uv_map_cancels_without_mutation (st : State)
    (h : st.mesh.uv_layers = []) :
    execute st =
      { result := .CANCELLED
        state := st
        log := { reports := [("ERROR", uvErrorMsg)], events := [],
                 bakeCalls := [], bakeMaterial := none } } :=
  execute_no_uv_eq st h

/-- Claim C4 witness at a concrete UV-less state. -/
theorem no_uv_map_cancels_without_mutation_witness :
    execute demoStateNoUV =
      { result := .CANCELLED
        state := demoStateNoUV
        log := { reports := [("ERROR", uvErrorMsg)], events := [],
                 bakeCalls := [], bakeMaterial := none } } :=
  no_uv_map_cancels_without_mutation demoStateNoUV rfl

/-- Claim C5: with a UV map but no selected polygon the operator reports
the empty-selection error, returns CANCELLED, and leaves the whole state
untouched. -/
theorem empty_selection_cancels_without_mutation (st : State)
    (hu : st.mesh.uv_layers ≠ [])
    (h : ∀ p ∈ st.mesh.polygons, p.select = false) :
    execute st =
      { result := .CANCELLED
        state := st
        log := { reports := [("ERROR", noSelectionMsg)], events := [],
                 bakeCalls := [], bakeMaterial := none } } :=
  execute_no_sel_eq st hu h

/-- Claim C5 witness at a concrete selection-less state. -/
theorem empty_selection_cancels_without_mutation_witness :
    execute demoStateNoSel =
      { result := .CANCELLED
        state := demoStateNoSel
        log := { reports := [("ERROR", noSelectionMsg)], events := [],
                 bakeCalls := [], bakeMaterial := none } } :=
  empty_selection_cancels_without_mutation demoStateNoSel (by decide) (by decide)

/-- Claim C6: before creating the temporary vertex-color layer and
material, any stale layer or material of the same reserved name has been
deleted, and a successful run can immediately be followed by another
successful run (no leftover temporary resources make it fail). -/
theorem stale_temp_resources_removed_and_rerun_succeeds (st : State)
    (hu : st.mesh.uv_layers ≠ [])
    (hs : (st.mesh.polygons.map Polygon.select).any id = true)
    (hv : (st.mesh.vertex_colors.map VcolLayer.name).Nodup)
    (hmn : (st.data_materials.map Material.name).Nodup) :
    (∀ l ∈ removeNamedVcol st.mesh.vertex_colors, l.name ≠ VCOL_LAYER_NAME) ∧
    (∀ m ∈ removeNamedMaterial st.data_materials, m.name ≠ BAKE_MATERIAL_NAME) ∧
    (execute st).result = .FINISHED ∧
    (execute (execute st).state).result = .FINISHED := by
  have hu' := List.isEmpty_eq_false.mpr hu
  have h1 := execute_happy_eq st hu' hs
  refine ⟨removeNamedVcol_clears _ hv, removeNamedMaterial_clears _ hmn, ?_, ?_⟩
  · rw [h1]
  · have hu2 : (execute st).state.mesh.uv_layers.isEmpty = false := by
      rw [h1]; exact hu'
    have hs2 : ((execute st).state.mesh.polygons.map Polygon.select).any id = true := by
      rw [h1]; exact hs
    rw [execute_happy_eq _ hu2 hs2]

/-- Claim C6 witness: two consecutive successful runs at the concrete
happy-path state. -/
theorem stale_temp_resources_removed_and_rerun_succeeds_witness :
    (execute demoState).result = .FINISHED ∧
    (execute (execute demoState).state).result = .FINISHED :=
  ⟨(stale_temp_resources_removed_and_rerun_succeeds demoState
      (by decide) (by decide) (by decide) (by decide)).2.2.1,
   (stale_temp_resources_removed_and_rerun_succeeds demoState
      (by decide) (by decide) (by decide) (by decide)).2.2.2⟩

/-- Claim C7: the temporary material at bake time has exactly four nodes —
output, emission, vertex-color, image-texture — with vertex-color wired to
emission and emission wired to the output surface; the image-texture node
is the active node (bake target) and is not an endpoint of any link. -/
theorem bake_material_graph_shape (st : State)
    (hu : st.mesh.uv_layers ≠ [])
    (hs : (st.mesh.polygons.map Polygon.select).any id = true) :
    (execute st).log.bakeMaterial = some (bakeMaterialFor st.scene.props.image_name) ∧
    (bakeMaterialFor st.scene.props.image_name).nodes =
      [NodeType.ShaderNodeOutputMaterial, NodeType.ShaderNodeEmission,
       NodeType.ShaderNodeVertexColor VCOL_LAYER_NAME,
       NodeType.ShaderNodeTexImage st.scene.props.image_name] ∧
    (bakeMaterialFor st.scene.props.image_name).nodes.length = 4 ∧
    (bakeMaterialFor st.scene.props.image_name).links =
      [{ from_node := 2, from_socket := "Color", to_node := 1, to_socket := "Color" },
       { from_node := 1, from_socket := "Emission", to_node := 0, to_socket := "Surface" }] ∧
    (bakeMaterialFor st.scene.props.image_name).active = some 3 ∧
    ∀ l ∈ (bakeMaterialFor st.scene.props.image_name).links,
      l.from_node ≠ 3 ∧ l.to_node ≠ 3 := by
  refine ⟨?_, rfl, rfl, rfl, rfl, ?_⟩
  · rw [execute_happy_eq st (List.isEmpty_eq_false.mpr hu) hs]
  · intro l hl
    have hl' : l ∈ [({ from_node := 2, from_socket := "Color",
                       to_node := 1, to_socket := "Color" } : Link),
                    { from_node := 1, from_socket := "Emission",
                      to_node := 0, to_socket := "Surface" }] := hl
    rcases List.mem_cons.mp hl' with h1 | h1
    · rw [h1]; exact ⟨by decide, by decide⟩
    · rcases List.mem_cons.mp h1 with h2 | h2
      · rw [h2]; exact ⟨by decide, by decide⟩
      · cases h2

/-- Claim C7 witness at the concrete happy-path state. -/
theorem bake_material_graph_shape_witness :
    (execute demoState).log.bakeMaterial =
      some (bakeMaterialFor demoState.scene.props.image_name) ∧
    (bakeMaterialFor demoState.scene.props.image_name).active = some 3 :=
  ⟨(bake_material_graph_shape demoState (by decide) (by decide)).1,
   (bake_material_graph_shape demoState (by decide) (by decide)).2.2.2.2.1⟩

/-- Claim C8: on the happy path the bake engine runs exactly once, with
type EMIT, the configured margin, and use_clear true. -/
theorem bake_invoked_once_with_emit (st : State)
    (hu : st.mesh.uv_layers ≠ [])
    (hs : (st.mesh.polygons.map Polygon.select).any id = true) :
    (execute st).log.bakeCalls =
      [{ btype := "EMIT", margin := st.scene.props.margin, use_clear := true }] := by
  rw [execute_happy_eq st (List.isEmpty_eq_false.mpr hu) hs]

/-- Claim C8 witness at the concrete happy-path state. -/
theorem bake_invoked_once_with_emit_witness :
    (execute demoState).log.bakeCalls =
      [{ btype := "EMIT", margin := demoState.scene.props.margin, use_clear := true }] :=
  bake_invoked_once_with_emit demoState (by decide) (by decide)

/-- Claim C9: the three configuration fields carry the declared defaults
and bounds (image name "FaceMask"; resolution 4096 in [256, 8192] step
1024; margin 2 in [0, 64]), and the image created on the happy path is
square with both sides equal to the configured resolution. -/
theorem config_defaults_and_square_image (st : State)
    (hu : st.mesh.uv_layers ≠ [])
    (hs : (st.mesh.polygons.map Polygon.select).any id = true) :
    defaultProps.image_name = "FaceMask" ∧
    defaultProps.image_size = 4096 ∧
    image_size_min = 256 ∧ image_size_max = 8192 ∧ image_size_step = 1024 ∧
    defaultProps.margin = 2 ∧ margin_min = 0 ∧ margin_max = 64 ∧
    (execute st).state.data_images = st.data_images ++ [imageFor st.scene.props] ∧
    (imageFor st.scene.props).width = st.scene.props.image_size ∧
    (imageFor st.scene.props).height = st.scene.props.image_size := by
  refine ⟨rfl, rfl, rfl, rfl, rfl, rfl, rfl, rfl, ?_, rfl, rfl⟩
  rw [execute_happy_eq st (List.isEmpty_eq_false.mpr hu) hs]

/-- Claim C9 witness at the concrete happy-path state. -/
theorem config_defaults_and_square_image_witness :
    defaultProps.image_name = "FaceMask" ∧
    defaultProps.image_size = 4096 ∧
    image_size_min = 256 ∧ image_size_max = 8192 ∧ image_size_step = 1024 ∧
    defaultProps.margin = 2 ∧ margin_min = 0 ∧ margin_max = 64 ∧
    (execute demoState).state.data_images =
      demoState.data_images ++ [imageFor demoState.scene.props] ∧
    (imageFor demoState.scene.props).width = demoState.scene.props.image_size ∧
    (imageFor demoState.scene.props).height = demoState.scene.props.image_size :=
  config_defaults_and_square_image demoState (by decide) (by decide)

/-- Claim C10: a mesh with neither UV map nor selected faces gets the
UV-map error, not the empty-selection error, and the empty-selection error
can only ever be reported when a UV map exists. -/
theorem uv_check_precedes_selection_check :
    (∀ st : State, st.mesh.uv_layers = [] →
      (∀ p ∈ st.mesh.polygons, p.select = false) →
      (execute st).log.reports = [("ERROR", uvErrorMsg)] ∧
      ("ERROR", noSelectionMsg) ∉ (execute st).log.reports) ∧
    (∀ st : State, ("ERROR", noSelectionMsg) ∈ (execute st).log.reports →
      st.mesh.uv_layers ≠ []) := by
  constructor
  · intro st h _
    rw [execute_no_uv_eq st h]
    refine ⟨rfl, ?_⟩
    show ("ERROR", noSelectionMsg) ∉ [("ERROR", uvErrorMsg)]
    decide
  · intro st hmem
    by_cases he : st.mesh.uv_layers = []
    · rw [execute_no_uv_eq st he] at hmem
      have hmem' : ("ERROR", noSelectionMsg) ∈ [("ERROR", uvErrorMsg)] := hmem
      exact absurd hmem' (by decide)
    · exact he

/-- Claim C10 witness: the UV-less, selection-less state gets exactly the
UV-map error; the state whose run reports the empty-selection error has a
UV map. -/
theorem uv_check_precedes_selection_check_witness :
    ((execute demoStateNoUV).log.reports = [("ERROR", uvErrorMsg)] ∧
     ("ERROR", noSelectionMsg) ∉ (execute demoStateNoUV).log.reports) ∧
    demoStateNoSel.mesh.uv_layers ≠ [] :=
  ⟨uv_check_precedes_selection_check.1 demoStateNoUV rfl (by decide),
   uv_check_precedes_selection_check.2 demoStateNoSel (by decide)⟩
